import Mathlib

/-
Verification development for the FlowGenius installer-builder scripts
(build_installer.py — the flag-driven script — and
build_installer_simple.py — the interactive script).

The scripts are shell-orchestration glue: they check prerequisites,
optionally clean output directories, invoke `npm run build` and the
three `npm run make:*` installer commands, and report artifacts.

Modelling choices (shallow embedding):
* External commands are opaque; the environment supplies the exit
  status (success / failure) of each potential command invocation.
  Each command call site runs at most once per run, so outcomes are
  one Boolean per call site.
* The filesystem is an association list of paths (strings, `/`
  separated, relative to the project root) to entries (file or
  directory).  Python filesystem exceptions (`NotADirectoryError`,
  `IsADirectoryError`, `FileNotFoundError`) are modelled with
  `Except`.
* Console output is modelled by its text payload: the timestamp,
  emoji and ANSI-color decorations added by the scripts' logging
  helpers are elided, as is the floating-point megabyte size shown
  next to each artifact (sizes decide nothing in the listing logic).
-/

/- ------------------------------------------------------------------
   String helpers mirroring the Python string/pathlib operations used
   by the scripts.
------------------------------------------------------------------ -/

/-- Substring test on character lists (Python `in` on strings). -/
def subList : List Char → List Char → Bool
  | n, [] => n.isPrefixOf ([] : List Char)
  | n, h :: t => n.isPrefixOf (h :: t) || subList n t

/-- Python `needle in hay` for strings. -/
def containsSub (needle hay : String) : Bool :=
  subList needle.toList hay.toList

/-- Python `s.startswith(pre)`. -/
def strStarts (pre s : String) : Bool :=
  pre.toList.isPrefixOf s.toList

/-- Python `s.endswith(suf)`. -/
def strEnds (suf s : String) : Bool :=
  suf.toList.reverse.isPrefixOf s.toList.reverse

/-- Python `s.lower()` (ASCII; every string the scripts lower-case is
ASCII). -/
def strLower (s : String) : String :=
  String.mk (s.toList.map Char.toLower)

/-- Whitespace recognised by Python `str.strip()`. -/
def isSpaceC (c : Char) : Bool :=
  c == ' ' || c == '\t' || c == '\n' || c == '\r' ||
    c == Char.ofNat 11 || c == Char.ofNat 12

/-- Python `s.strip()`. -/
def strTrim (s : String) : String :=
  String.mk (((s.toList.dropWhile isSpaceC).reverse.dropWhile isSpaceC).reverse)

/-- `pathlib.PurePath.name`: the final path component. -/
def pathName (p : String) : String :=
  String.mk ((p.toList.reverse.takeWhile (fun c => !(c == '/'))).reverse)

/-- The directory part of a path ("" when there is no slash).
Mirrors `pathlib.PurePath.parent` for the relative paths used here. -/
def parentDir (p : String) : String :=
  let cs := p.toList
  let nameLen := (cs.reverse.takeWhile (fun c => !(c == '/'))).length
  if cs.length == nameLen then "" else String.mk (cs.take (cs.length - nameLen - 1))

/-- `pathlib.PurePath.suffix`: the extension of the final component.
CPython: `i = name.rfind('.'); return name[i:] if 0 < i < len(name)-1
else ''`. -/
def pathSuffix (p : String) : String :=
  let cs := (pathName p).toList
  if cs.contains '.' then
    let afterRev := cs.reverse.takeWhile (fun c => !(c == '.'))
    let extLen := afterRev.length + 1
    if 1 < extLen && extLen < cs.length then String.mk ('.' :: afterRev.reverse) else ""
  else ""

/- ------------------------------------------------------------------
   Filesystem model.
------------------------------------------------------------------ -/

/-- Kind of a filesystem entry. -/
inductive Entry
  | file
  | dir
deriving DecidableEq

/-- A filesystem state: the existing paths with their kinds. -/
abbrev FS := List (String × Entry)

/-- Kind of the entry at a path, if the path exists. -/
def lookupFS (fs : FS) (p : String) : Option Entry :=
  (fs.find? (fun e => e.1 == p)).map (fun e => e.2)

/-- `Path.exists()`. -/
def existsB (fs : FS) (p : String) : Bool :=
  (lookupFS fs p).isSome

/-- `Path.is_dir()`. -/
def isDirB (fs : FS) (p : String) : Bool :=
  lookupFS fs p == some Entry.dir

/-- The state left by a successful `shutil.rmtree(p)`: the path and
everything below it are removed. -/
def remTree (fs : FS) (p : String) : FS :=
  fs.filter (fun e => !(e.1 == p || strStarts (p ++ "/") e.1))

/-- `shutil.rmtree(p)`: succeeds on a directory, raises
`NotADirectoryError` on a file and `FileNotFoundError` on a missing
path. -/
def rmtree (fs : FS) (p : String) : Except String FS :=
  match lookupFS fs p with
  | some Entry.dir => Except.ok (remTree fs p)
  | some Entry.file => Except.error ("NotADirectoryError: " ++ p)
  | none => Except.error ("FileNotFoundError: " ++ p)

/-- `os.remove(p)`: succeeds on a file, raises `IsADirectoryError` on
a directory and `FileNotFoundError` on a missing path. -/
def osRemove (fs : FS) (p : String) : Except String FS :=
  match lookupFS fs p with
  | some Entry.file => Except.ok (fs.filter (fun e => !(e.1 == p)))
  | some Entry.dir => Except.error ("IsADirectoryError: " ++ p)
  | none => Except.error ("FileNotFoundError: " ++ p)

/-- `glob.glob(pat)` matching for the shapes of pattern the scripts
use: a directory part with a final component `*EXT` (a single leading
`*` wildcard).  The `glob` module does not match names with a leading
dot when the pattern does not start with one. -/
def globMatch (pat p : String) : Bool :=
  let npat := pathName pat
  parentDir p == parentDir pat &&
    (if strStarts ("*") npat then
      strEnds (npat.drop 1) (pathName p) && !(strStarts (".") (pathName p))
    else npat == pathName p)

/- ------------------------------------------------------------------
   build_installer.py (the flag-driven script): FlowGeniusBuilder.
------------------------------------------------------------------ -/

namespace Flag

/-- The paths listed in `FlowGeniusBuilder.clean_build`
(`directories_to_clean` in the source; `self.dist_path` is
`<root>/out`). -/
def directories_to_clean : List String :=
  ["out", "dist", ".webpack", "src/renderer/*.js", "src/renderer/*.js.map"]

/-- One iteration of the loop body of `FlowGeniusBuilder.clean_build`:
if the path exists and is a directory it is removed with
`shutil.rmtree`; otherwise, if the final component contains `*`, the
glob matches are removed with `os.remove`; otherwise nothing happens.
Note the glob branch is guarded by `dir_path.exists()` on the literal
pattern path. -/
def clean_step (fs : FS) (p : String) : Except String FS :=
  if existsB fs p then
    if isDirB fs p then rmtree fs p
    else if (pathName p).toList.contains '*' then
      let files := (fs.filter (fun e => globMatch p e.1)).map Prod.fst
      files.foldlM osRemove fs
    else Except.ok fs
  else Except.ok fs

/-- `FlowGeniusBuilder.clean_build`: processes the fixed path list and
returns `True`. -/
def clean_build (fs : FS) : Except String (FS × Bool) :=
  match directories_to_clean.foldlM clean_step fs with
  | Except.ok fs2 => Except.ok (fs2, true)
  | Except.error e => Except.error e

/-- The extension allow-list in `_show_build_artifacts`. -/
def allow_list : List String :=
  [".exe", ".dmg", ".deb", ".rpm", ".appimage", ".zip"]

/-- The filter applied to each entry found by `dist_path.rglob("*")`:
`f.is_file() and any(ext in f.suffix.lower() for ext in [...])`.
Note `ext in ...` is substring containment, not equality. -/
def artifactPred (e : String × Entry) : Bool :=
  decide (e.2 = Entry.file) &&
    allow_list.any (fun ext => containsSub ext (strLower (pathSuffix e.1)))

/-- `FlowGeniusBuilder._show_build_artifacts`: returns the listed
installer paths and the printed message payloads.  When `out` does not
exist, nothing is scanned and nothing is printed. -/
def show_build_artifacts (fs : FS) (platformName : String) : List String × List String :=
  if existsB fs ("out") then
    let artifacts := fs.filter (fun e => strStarts ("out/") e.1)
    let installers := (artifacts.filter artifactPred).map Prod.fst
    (installers,
      if installers.isEmpty then []
      else
        ("Build artifacts for " ++ platformName ++ ":") ::
          installers.foldr
            (fun p acc => ("  " ++ pathName p) :: ("     Path: " ++ p) :: acc) [])
  else ([], [])

end Flag

/- ------------------------------------------------------------------
   build_installer_simple.py (the interactive script): cleaning and
   reporting.
------------------------------------------------------------------ -/

namespace Simple

/-- `dirs_to_clean` in `clean_build` of the interactive script. -/
def dirs_to_clean : List String :=
  ["out", "dist", ".webpack"]

/-- One iteration of the interactive script's `clean_build` loop:
`if dir_path.exists(): shutil.rmtree(dir_path)` — note there is no
`is_dir` check, so an existing regular file reaches `rmtree`. -/
def clean_step (fs : FS) (p : String) : Except String FS :=
  if existsB fs p then rmtree fs p else Except.ok fs

/-- `clean_build` of the interactive script: removes `out`, `dist`
and `.webpack` when present, then returns `True`. -/
def clean_build (fs : FS) : Except String (FS × Bool) :=
  match dirs_to_clean.foldlM clean_step fs with
  | Except.ok fs2 => Except.ok (fs2, true)
  | Except.error e => Except.error e

/-- A path produced by `out_dir.rglob("*" + ext)`: any descendant of
`out` (file or directory — the interactive script has no `is_file`
check) whose name ends with `ext`.  `pathlib` glob does not
special-case leading dots. -/
def rglobName (ext p : String) : Bool :=
  strStarts ("out/") p && strEnds ext (pathName p)

/-- `show_build_results`: the listed paths (the concatenation of the
three rglob queries) and the printed message payloads. -/
def show_build_results (fs : FS) : List String × List String :=
  if existsB fs ("out") then
    let installers :=
      ((fs.filter (fun e => rglobName (".exe") e.1)).map Prod.fst)
        ++ ((fs.filter (fun e => rglobName (".dmg") e.1)).map Prod.fst)
        ++ ((fs.filter (fun e => rglobName (".AppImage") e.1)).map Prod.fst)
    let perFile :=
      if installers.isEmpty then ["No installer files found in out/ directory"]
      else installers.foldr (fun p acc => ("  " ++ pathName p) :: ("     Path: " ++ p) :: acc) []
    (installers,
      ("Build completed! Generated files:") ::
        perFile ++ ["All files are in the \x27out\x27 directory: out"])
  else ([], ["No \x27out\x27 directory found. Build may have failed."])

end Simple

/- ------------------------------------------------------------------
   Command invocations.  Each external command the scripts can run.
   `npm --version` probes are part of the environment (Env/npmOk),
   not of the command trace, since the scripts treat them as
   prerequisite probes rather than build steps.
------------------------------------------------------------------ -/

/-- The `npm` subcommands invoked by the scripts. -/
inductive CmdName
  | npmInstall
  | npmBuild
  | makeWin
  | makeMac
  | makeLinux
deriving DecidableEq

namespace Flag

/-- The argparse flags of build_installer.py. -/
structure Args where
  windows : Bool
  macos : Bool
  linux : Bool
  all : Bool
  clean : Bool
  installDeps : Bool
  verbose : Bool
deriving DecidableEq

/-- `Args` is a finite type (it is seven Booleans). -/
instance : Fintype Args :=
  Fintype.ofEquiv (Bool × Bool × Bool × Bool × Bool × Bool × Bool)
    { toFun := fun t => ⟨t.1, t.2.1, t.2.2.1, t.2.2.2.1, t.2.2.2.2.1, t.2.2.2.2.2.1, t.2.2.2.2.2.2⟩
      invFun := fun a => (a.windows, a.macos, a.linux, a.all, a.clean, a.installDeps, a.verbose)
      left_inv := fun _ => rfl
      right_inv := fun _ => rfl }

/-- Host facts probed by `check_prerequisites` and
`FlowGeniusBuilder.__init__`: whether an `npm` executable answers
`--version`, whether `package.json` exists, whether `node_modules`
exists. -/
structure Env where
  npmOk : Bool
  packageJson : Bool
  nodeModules : Bool
deriving DecidableEq

/-- `Env` is a finite type. -/
instance : Fintype Env :=
  Fintype.ofEquiv (Bool × Bool × Bool)
    { toFun := fun t => ⟨t.1, t.2.1, t.2.2⟩
      invFun := fun e => (e.npmOk, e.packageJson, e.nodeModules)
      left_inv := fun _ => rfl
      right_inv := fun _ => rfl }

/-- Exit status (`True` = subprocess exited 0) of each command call
site of one run of build_installer.py.  `npm install` has two call
sites: inside `check_prerequisites` (when `node_modules` is missing)
and under `--install-deps`. -/
structure CmdOutcomes where
  installAtPrereq : Bool
  installAtFlag : Bool
  build : Bool
  makeWin : Bool
  makeMac : Bool
  makeLinux : Bool
deriving DecidableEq

/-- `CmdOutcomes` is a finite type. -/
instance : Fintype CmdOutcomes :=
  Fintype.ofEquiv (Bool × Bool × Bool × Bool × Bool × Bool)
    { toFun := fun t => ⟨t.1, t.2.1, t.2.2.1, t.2.2.2.1, t.2.2.2.2.1, t.2.2.2.2.2⟩
      invFun := fun o => (o.installAtPrereq, o.installAtFlag, o.build, o.makeWin, o.makeMac, o.makeLinux)
      left_inv := fun _ => rfl
      right_inv := fun _ => rfl }

/-- Target platforms. -/
inductive Platform
  | windows
  | macos
  | linux
deriving DecidableEq

/-- The platform-defaulting logic at the top of `main`: when no
platform flag is given, the host OS (lower-cased `platform.system()`)
selects the single target; unknown hosts fall back to Windows. -/
def resolveTargets (args : Args) (system : String) : Args :=
  if args.windows || args.macos || args.linux || args.all then args
  else
    let cp := strLower system
    if cp == "windows" then { args with windows := true }
    else if cp == "darwin" then { args with macos := true }
    else if cp == "linux" then { args with linux := true }
    else { args with windows := true }

/-- The set of platforms whose installer commands `main` will attempt
(in source order: windows, macos, linux; each guarded by
`args.all or args.<platform>`). -/
def targets (a : Args) : List Platform :=
  (if a.all || a.windows then [Platform.windows] else [])
    ++ (if a.all || a.macos then [Platform.macos] else [])
    ++ (if a.all || a.linux then [Platform.linux] else [])

/-- `FlowGeniusBuilder.check_prerequisites`: npm probe, then
`package.json` existence, then `node_modules` existence (running
`npm install` when missing).  Returns the success flag and the
commands invoked. -/
def check_prerequisites (env : Env) (oc : CmdOutcomes) : Bool × List CmdName :=
  if env.npmOk then
    if env.packageJson then
      if env.nodeModules then (true, [])
      else (oc.installAtPrereq, [CmdName.npmInstall])
    else (false, [])
  else (false, [])

/-- Result of one run of build_installer.py's `main`. -/
structure RunOut where
  exitCode : Nat
  trace : List CmdName
  platformsBuilt : List String
deriving DecidableEq

/-- The body of `main` of build_installer.py after platform
resolution, parametrised by the four Booleans `main` branches on:
`args.install_deps` and the three `args.all or args.<platform>`
tests.  In order: builder construction (exits 1 when `package.json`
is missing), prerequisites, `--install-deps`, `--clean` (the cleaner
always returns `True`, so its `sys.exit(1)` branch is dead; its
filesystem effect is modelled by `Flag.clean_build`), the build step,
then one installer command per requested platform with the overall
flag going false on any failure. -/
def flagCore (instDeps reqWin reqMac reqLinux : Bool) (env : Env) (oc : CmdOutcomes) : RunOut :=
  if !env.packageJson then { exitCode := 1, trace := [], platformsBuilt := [] }
  else
    let pr := check_prerequisites env oc
    if !pr.1 then { exitCode := 1, trace := pr.2, platformsBuilt := [] }
    else
      let st :=
        if instDeps then (oc.installAtFlag, pr.2 ++ [CmdName.npmInstall])
        else (true, pr.2)
      if !st.1 then { exitCode := 1, trace := st.2, platformsBuilt := [] }
      else
        let tr := st.2 ++ [CmdName.npmBuild]
        if !oc.build then { exitCode := 1, trace := tr, platformsBuilt := [] }
        else
          let s1 :=
            if reqWin then
              if oc.makeWin then (["Windows"], true, tr ++ [CmdName.makeWin])
              else (([] : List String), false, tr ++ [CmdName.makeWin])
            else (([] : List String), true, tr)
          let s2 :=
            if reqMac then
              if oc.makeMac then (s1.1 ++ ["macOS"], s1.2.1, s1.2.2 ++ [CmdName.makeMac])
              else (s1.1, false, s1.2.2 ++ [CmdName.makeMac])
            else s1
          let s3 :=
            if reqLinux then
              if oc.makeLinux then (s2.1 ++ ["Linux"], s2.2.1, s2.2.2 ++ [CmdName.makeLinux])
              else (s2.1, false, s2.2.2 ++ [CmdName.makeLinux])
            else s2
          { exitCode := if s3.2.1 then 0 else 1, trace := s3.2.2, platformsBuilt := s3.1 }

/-- `main` of build_installer.py after platform resolution (the
source tests `args.all or args.<platform>` at each installer step). -/
def flagRun (args : Args) (env : Env) (oc : CmdOutcomes) : RunOut :=
  flagCore args.installDeps (args.all || args.windows) (args.all || args.macos)
    (args.all || args.linux) env oc

/-- `main` of build_installer.py: platform resolution followed by the
run. -/
def main (rawArgs : Args) (system : String) (env : Env) (oc : CmdOutcomes) : RunOut :=
  flagRun (resolveTargets rawArgs system) env oc

end Flag

/- ------------------------------------------------------------------
   build_installer_simple.py: the menu loop.
------------------------------------------------------------------ -/

namespace Simple

/-- Exit status of each command call site available to one iteration
of the interactive script's menu loop. -/
structure IterOutcomes where
  build : Bool
  makeWin : Bool
  makeMac : Bool
  makeLinux : Bool
deriving DecidableEq

/-- `IterOutcomes` is a finite type. -/
instance : Fintype IterOutcomes :=
  Fintype.ofEquiv (Bool × Bool × Bool × Bool)
    { toFun := fun t => ⟨t.1, t.2.1, t.2.2.1, t.2.2.2⟩
      invFun := fun o => (o.build, o.makeWin, o.makeMac, o.makeLinux)
      left_inv := fun _ => rfl
      right_inv := fun _ => rfl }

/-- `create_all_installers`: Windows (failure clears the success
flag), then the macOS attempt whose `CalledProcessError` is caught and
only reported (the success flag is untouched), then Linux (failure
clears the flag).  The returned trace lists the attempted commands in
order. -/
def create_all_installers (io : IterOutcomes) : List CmdName × Bool :=
  let success := true
  let success := if io.makeWin then success else false
  let t := [CmdName.makeWin]
  let t := t ++ [CmdName.makeMac]
  let success := success
  let t := t ++ [CmdName.makeLinux]
  let success := if io.makeLinux then success else false
  (t, success)

/-- What one menu selection does: exit the process, skip back to the
menu (help / invalid choice), or run a build sequence with a trace of
attempted commands and a success flag. -/
inductive IterStep
  | exitNow
  | skip
  | built (trace : List CmdName) (success : Bool)
deriving DecidableEq

/-- The dispatch on `choice = input(...).strip()` in the interactive
script's `main` loop.  Choices 3 and 4 first run `clean_build`, which
always returns `True` (its filesystem effect is modelled by
`Simple.clean_build`), so their command behaviour equals choices 1
and 2.  `and` short-circuits: a failed build skips the installer
steps. -/
def stepOf (io : IterOutcomes) (rawChoice : String) : IterStep :=
  let choice := strTrim rawChoice
  if choice == "1" then
    if io.build then IterStep.built [CmdName.npmBuild, CmdName.makeWin] io.makeWin
    else IterStep.built [CmdName.npmBuild] false
  else if choice == "2" then
    if io.build then
      let r := create_all_installers io
      IterStep.built (CmdName.npmBuild :: r.1) r.2
    else IterStep.built [CmdName.npmBuild] false
  else if choice == "3" then
    if io.build then IterStep.built [CmdName.npmBuild, CmdName.makeWin] io.makeWin
    else IterStep.built [CmdName.npmBuild] false
  else if choice == "4" then
    if io.build then
      let r := create_all_installers io
      IterStep.built (CmdName.npmBuild :: r.1) r.2
    else IterStep.built [CmdName.npmBuild] false
  else if choice == "5" then IterStep.skip
  else if choice == "6" then IterStep.exitNow
  else IterStep.skip

/-- The interactive script's `main` loop after a successful
prerequisite check, consuming the user's input lines.  Menu choice 6
exits with status 0; after a build sequence the continue prompt is
read, and any answer other than `y`/`yes` breaks out of the loop (the
script then falls off `main`, i.e. exits with status 0).  `none`
means the supplied input was exhausted with the loop still running.
`os n` gives the command outcomes of iteration `n`. -/
def runLoop (os : Nat → IterOutcomes) : Nat → List String → Option Nat
  | _, [] => none
  | n, choice :: rest =>
    match stepOf (os n) choice with
    | IterStep.exitNow => some 0
    | IterStep.skip => runLoop os (n + 1) rest
    | IterStep.built _ _ =>
      match rest with
      | [] => none
      | ans :: rest2 =>
        let a := strLower (strTrim ans)
        if a == "y" || a == "yes" then runLoop os (n + 1) rest2 else some 0

/-- Unfolding equation of `runLoop` on the empty input. -/
theorem runLoop_nil (os : Nat → IterOutcomes) (n : Nat) :
    runLoop os n [] = none := rfl

end Simple

/- ------------------------------------------------------------------
   Helper lemmas about the flag-driven run, proved by exhausting the
   finitely many Boolean environments.
------------------------------------------------------------------ -/

namespace Flag

set_option maxRecDepth 100000 in
set_option synthInstance.maxHeartbeats 1000000 in
set_option synthInstance.maxSize 1024 in
/-- Exit-code characterization of the post-resolution run. -/
theorem flagCore_exit_iff :
    ∀ (instDeps reqWin reqMac reqLinux : Bool) (env : Env) (oc : CmdOutcomes),
    ((flagCore instDeps reqWin reqMac reqLinux env oc).exitCode = 0 ↔
      (env.npmOk = true ∧ env.packageJson = true
       ∧ (env.nodeModules = false → oc.installAtPrereq = true)
       ∧ (instDeps = true → oc.installAtFlag = true)
       ∧ oc.build = true
       ∧ (reqWin = true → oc.makeWin = true)
       ∧ (reqMac = true → oc.makeMac = true)
       ∧ (reqLinux = true → oc.makeLinux = true))) := by decide

set_option maxRecDepth 100000 in
set_option synthInstance.maxHeartbeats 1000000 in
set_option synthInstance.maxSize 1024 in
/-- If the build command ran and failed, no installer command is in
the trace and the run exits 1. -/
theorem flagCore_build_gate :
    ∀ (instDeps reqWin reqMac reqLinux : Bool) (env : Env) (oc : CmdOutcomes),
    CmdName.npmBuild ∈ (flagCore instDeps reqWin reqMac reqLinux env oc).trace →
    oc.build = false →
    (CmdName.makeWin ∉ (flagCore instDeps reqWin reqMac reqLinux env oc).trace
      ∧ CmdName.makeMac ∉ (flagCore instDeps reqWin reqMac reqLinux env oc).trace
      ∧ CmdName.makeLinux ∉ (flagCore instDeps reqWin reqMac reqLinux env oc).trace)
    ∧ (flagCore instDeps reqWin reqMac reqLinux env oc).exitCode = 1 := by decide

set_option maxRecDepth 100000 in
set_option synthInstance.maxHeartbeats 1000000 in
set_option synthInstance.maxSize 1024 in
/-- Once the installer phase is reached, each requested platform's
command is attempted exactly once (and an unrequested one never),
whatever the outcomes of the other platforms, and the exit code is 0
exactly when every requested platform's command succeeded. -/
theorem flagCore_installers :
    ∀ (instDeps reqWin reqMac reqLinux : Bool) (env : Env) (oc : CmdOutcomes),
    env.npmOk = true → env.packageJson = true →
    (env.nodeModules = false → oc.installAtPrereq = true) →
    (instDeps = true → oc.installAtFlag = true) →
    oc.build = true →
    ((flagCore instDeps reqWin reqMac reqLinux env oc).trace.count CmdName.makeWin
        = (if reqWin then 1 else 0)
      ∧ (flagCore instDeps reqWin reqMac reqLinux env oc).trace.count CmdName.makeMac
        = (if reqMac then 1 else 0)
      ∧ (flagCore instDeps reqWin reqMac reqLinux env oc).trace.count CmdName.makeLinux
        = (if reqLinux then 1 else 0))
    ∧ ((flagCore instDeps reqWin reqMac reqLinux env oc).exitCode = 0 ↔
        ((reqWin = true → oc.makeWin = true)
          ∧ (reqMac = true → oc.makeMac = true)
          ∧ (reqLinux = true → oc.makeLinux = true))) := by decide

end Flag

/- ------------------------------------------------------------------
   Lemmas about the filesystem model.
------------------------------------------------------------------ -/

/-- `lookupFS` misses exactly when no entry carries the key. -/
theorem lookupFS_eq_none_iff (fs : FS) (q : String) :
    lookupFS fs q = none ↔ ∀ x ∈ fs, (x.1 == q) = false := by
  simp [lookupFS, List.find?_eq_none]

/-- `find?` commutes with a filter that keeps everything the
predicate can select. -/
theorem find_filter_of_pred {α : Type} (f pred : α → Bool) :
    ∀ (l : List α), (∀ x, pred x = true → f x = true) →
    (l.filter f).find? pred = l.find? pred := by
  intro l h
  induction l with
  | nil => simp
  | cons e t ih =>
    by_cases hp : pred e = true
    · simp [List.filter_cons, h e hp, List.find?_cons, hp]
    · cases hf : f e <;>
        simp [List.filter_cons, hf, List.find?_cons, hp, ih]

/-- Filtering can only lose entries: a missing path stays missing. -/
theorem lookupFS_filter_none (fs : FS) (g : String × Entry → Bool) (q : String)
    (h : lookupFS fs q = none) : lookupFS (fs.filter g) q = none := by
  rw [lookupFS_eq_none_iff] at h ⊢
  intro x hx
  exact h x (List.mem_of_mem_filter hx)

/-- After `remTree fs p`, the path `p` is gone. -/
theorem lookupFS_remTree_self (fs : FS) (p : String) :
    lookupFS (remTree fs p) p = none := by
  rw [lookupFS_eq_none_iff]
  intro x hx
  have := (List.mem_filter.mp hx).2
  simp only [Bool.not_eq_true', Bool.or_eq_false_iff] at this
  exact this.1

/-- `remTree fs p` does not change the lookup of a path that is
neither `p` nor below it. -/
theorem lookupFS_remTree_other (fs : FS) (p q : String)
    (h1 : (q == p) = false) (h2 : strStarts (p ++ "/") q = false) :
    lookupFS (remTree fs p) q = lookupFS fs q := by
  unfold lookupFS remTree
  rw [find_filter_of_pred]
  intro x hx
  have hxq : x.1 = q := by
    have h3 : (x.1 == q) = true := hx
    exact beq_iff_eq.mp h3
  rw [hxq, h1, h2]
  rfl

/-- A successful `os.remove` only removes: a missing path stays
missing. -/
theorem osRemove_none (fs : FS) (p q : String) (fs2 : FS)
    (h : osRemove fs p = Except.ok fs2) (hq : lookupFS fs q = none) :
    lookupFS fs2 q = none := by
  unfold osRemove at h
  rcases hl : lookupFS fs p with _ | e
  · rw [hl] at h; cases h
  · cases e <;> rw [hl] at h
    · cases h
      exact lookupFS_filter_none fs _ q hq
    · cases h

/-- A successful `os.remove` loop only removes. -/
theorem foldlM_osRemove_none :
    ∀ (ps : List String) (fs fs2 : FS) (q : String),
    List.foldlM osRemove fs ps = Except.ok fs2 → lookupFS fs q = none →
    lookupFS fs2 q = none := by
  intro ps
  induction ps with
  | nil =>
    intro fs fs2 q h hq
    simp only [List.foldlM_nil] at h
    cases h
    exact hq
  | cons a t ih =>
    intro fs fs2 q h hq
    rw [List.foldlM_cons] at h
    rcases ha : osRemove fs a with e | s
    · rw [ha] at h; cases h
    · rw [ha] at h
      exact ih s fs2 q h (osRemove_none fs a q s ha hq)

/-- Under the hypothesis that the path is not a regular file, one
flag-script cleaning step either finds nothing (and does nothing) or
removes a directory tree. -/
theorem flag_clean_step_cases (fs : FS) (p : String)
    (h : lookupFS fs p ≠ some Entry.file) :
    (lookupFS fs p = none ∧ Flag.clean_step fs p = Except.ok fs) ∨
    (lookupFS fs p = some Entry.dir ∧ Flag.clean_step fs p = Except.ok (remTree fs p)) := by
  rcases hl : lookupFS fs p with _ | e
  · left
    refine ⟨rfl, ?_⟩
    simp [Flag.clean_step, existsB, hl]
  · cases e
    · exact absurd hl h
    · right
      refine ⟨rfl, ?_⟩
      simp [Flag.clean_step, existsB, isDirB, rmtree, hl]

/-- One flag-script cleaning step only removes entries. -/
theorem flag_clean_step_none (fs : FS) (p q : String) (fs2 : FS)
    (h : Flag.clean_step fs p = Except.ok fs2) (hq : lookupFS fs q = none) :
    lookupFS fs2 q = none := by
  unfold Flag.clean_step at h
  by_cases he : existsB fs p = true
  · rw [if_pos he] at h
    by_cases hd : isDirB fs p = true
    · rw [if_pos hd] at h
      unfold rmtree at h
      rcases hl : lookupFS fs p with _ | e
      · rw [hl] at h; cases h
      · cases e <;> rw [hl] at h
        · cases h
        · cases h
          exact lookupFS_filter_none fs _ q hq
    · rw [if_neg hd] at h
      by_cases hs : ((pathName p).toList.contains '*') = true
      · rw [if_pos hs] at h
        exact foldlM_osRemove_none _ fs fs2 q h hq
      · rw [if_neg hs] at h
        cases h
        exact hq
  · rw [if_neg he] at h
    cases h
    exact hq

/-- Under the hypothesis that the path is not a regular file, one
interactive-script cleaning step either finds nothing or removes a
directory tree. -/
theorem simple_clean_step_cases (fs : FS) (p : String)
    (h : lookupFS fs p ≠ some Entry.file) :
    (lookupFS fs p = none ∧ Simple.clean_step fs p = Except.ok fs) ∨
    (lookupFS fs p = some Entry.dir ∧ Simple.clean_step fs p = Except.ok (remTree fs p)) := by
  rcases hl : lookupFS fs p with _ | e
  · left
    refine ⟨rfl, ?_⟩
    simp [Simple.clean_step, existsB, hl]
  · cases e
    · exact absurd hl h
    · right
      refine ⟨rfl, ?_⟩
      simp [Simple.clean_step, existsB, rmtree, hl]

/-- One interactive-script cleaning step only removes entries. -/
theorem simple_clean_step_none (fs : FS) (p q : String) (fs2 : FS)
    (h : Simple.clean_step fs p = Except.ok fs2) (hq : lookupFS fs q = none) :
    lookupFS fs2 q = none := by
  unfold Simple.clean_step at h
  by_cases he : existsB fs p = true
  · rw [if_pos he] at h
    unfold rmtree at h
    rcases hl : lookupFS fs p with _ | e
    · rw [hl] at h; cases h
    · cases e <;> rw [hl] at h
      · cases h
      · cases h
        exact lookupFS_filter_none fs _ q hq
  · rw [if_neg he] at h
    cases h
    exact hq

/-- An entire successful cleaning pass only removes entries. -/
theorem fold_none_of_step_none (step : FS → String → Except String FS)
    (hnone : ∀ fs p q fs2, step fs p = Except.ok fs2 → lookupFS fs q = none →
      lookupFS fs2 q = none) :
    ∀ (ps : List String) (fs fs2 : FS) (q : String),
    List.foldlM step fs ps = Except.ok fs2 → lookupFS fs q = none →
    lookupFS fs2 q = none := by
  intro ps
  induction ps with
  | nil =>
    intro fs fs2 q h hq
    simp only [List.foldlM_nil] at h
    cases h
    exact hq
  | cons a t ih =>
    intro fs fs2 q h hq
    rw [List.foldlM_cons] at h
    rcases ha : step fs a with e | s
    · rw [ha] at h; cases h
    · rw [ha] at h
      exact ih s fs2 q h (hnone fs a q s ha hq)

/-- The pairwise separation needed between cleaned paths: a later
path is neither equal to an earlier one nor below it. -/
def sepRel (p q : String) : Prop :=
  (q == p) = false ∧ strStarts (p ++ "/") q = false

instance : DecidableRel sepRel := fun p q => by
  unfold sepRel
  infer_instance

/-- The cleaning pass of either script (any step function that, on a
path that is not a regular file, is either a no-op on a missing path
or a `remTree` on a directory, and that only removes entries): when
every listed path is absent or a directory and the listed paths are
pairwise separated, the pass succeeds, afterwards every listed path
is absent, and a second pass returns the same state unchanged. -/
theorem fold_clean_general (step : FS → String → Except String FS)
    (hcases : ∀ fs p, lookupFS fs p ≠ some Entry.file →
      (lookupFS fs p = none ∧ step fs p = Except.ok fs) ∨
      (lookupFS fs p = some Entry.dir ∧ step fs p = Except.ok (remTree fs p)))
    (hnone : ∀ fs p q fs2, step fs p = Except.ok fs2 → lookupFS fs q = none →
      lookupFS fs2 q = none) :
    ∀ (ps : List String) (fs : FS),
    (∀ p ∈ ps, lookupFS fs p ≠ some Entry.file) →
    ps.Pairwise sepRel →
    ∃ fs2, List.foldlM step fs ps = Except.ok fs2
      ∧ (∀ p ∈ ps, lookupFS fs2 p = none)
      ∧ List.foldlM step fs2 ps = Except.ok fs2 := by
  intro ps
  induction ps with
  | nil =>
    intro fs _ _
    exact ⟨fs, rfl, by simp, rfl⟩
  | cons p t ih =>
    intro fs hWF hpw
    rw [List.pairwise_cons] at hpw
    rcases hcases fs p (hWF p (List.mem_cons_self p t)) with ⟨hl, hstep⟩ | ⟨hl, hstep⟩
    · -- the path is absent: the step is a no-op
      obtain ⟨fs2, hf, hall, h2⟩ :=
        ih fs (fun q hq => hWF q (List.mem_cons_of_mem p hq)) hpw.2
      have hp2 : lookupFS fs2 p = none := fold_none_of_step_none step hnone t fs fs2 p hf hl
      refine ⟨fs2, ?_, ?_, ?_⟩
      · rw [List.foldlM_cons, hstep]
        exact hf
      · intro q hq
        rcases List.mem_cons.mp hq with rfl | hq'
        · exact hp2
        · exact hall q hq'
      · rw [List.foldlM_cons]
        rcases hcases fs2 p (by rw [hp2]; exact fun hc => Option.noConfusion hc)
          with ⟨_, hstep2⟩ | ⟨hl2, _⟩
        · rw [hstep2]
          exact h2
        · rw [hp2] at hl2
          cases hl2
    · -- the path is a directory: the step removes its tree
      have hWFB : ∀ q ∈ t, lookupFS (remTree fs p) q ≠ some Entry.file := by
        intro q hq
        have hsep := hpw.1 q hq
        rw [lookupFS_remTree_other fs p q hsep.1 hsep.2]
        exact hWF q (List.mem_cons_of_mem p hq)
      obtain ⟨fs2, hf, hall, h2⟩ := ih (remTree fs p) hWFB hpw.2
      have hpB : lookupFS (remTree fs p) p = none := lookupFS_remTree_self fs p
      have hp2 : lookupFS fs2 p = none :=
        fold_none_of_step_none step hnone t (remTree fs p) fs2 p hf hpB
      refine ⟨fs2, ?_, ?_, ?_⟩
      · rw [List.foldlM_cons, hstep]
        exact hf
      · intro q hq
        rcases List.mem_cons.mp hq with rfl | hq'
        · exact hp2
        · exact hall q hq'
      · rw [List.foldlM_cons]
        rcases hcases fs2 p (by rw [hp2]; exact fun hc => Option.noConfusion hc)
          with ⟨_, hstep2⟩ | ⟨hl2, _⟩
        · rw [hstep2]
          exact h2
        · rw [hp2] at hl2
          cases hl2

/- ------------------------------------------------------------------
   Concrete states and environments used as witnesses and
   counterexamples.
------------------------------------------------------------------ -/

/-- A state in which the `out` path is a regular file. -/
def fsFileOut : FS := [("out", Entry.file)]

/-- A state with generated renderer artifacts matching the cleaner's
glob patterns (and no path literally named `src/renderer/*.js`). -/
def fsGlobBug : FS :=
  [("src", Entry.dir), ("src/renderer", Entry.dir),
   ("src/renderer/app.js", Entry.file), ("src/renderer/app.js.map", Entry.file)]

/-- A state whose only artifact has the extension `.zipx`, which is
not in the allow-list. -/
def fsZipx : FS := [("out", Entry.dir), ("out/FlowGenius.zipx", Entry.file)]

/-- A normal pre-clean state: output directories present. -/
def fsNormal : FS :=
  [("out", Entry.dir), ("out/make/FlowGenius.exe", Entry.file),
   ("dist", Entry.dir), ("node_modules", Entry.dir)]

/- ------------------------------------------------------------------
   The claims.
------------------------------------------------------------------ -/

/-- C5, counterexample: the claim quantifies over every initial
filesystem state, but on a state in which the path `out` is a regular
file the interactive script's cleaner reaches
`shutil.rmtree("out")` (it guards only on `exists()`, not
`is_dir()`), which raises `NotADirectoryError` — so the clean
operation does not return success and raises an error on its very
first invocation. -/
theorem clean_on_file_out_raises :
    Simple.clean_build fsFileOut = Except.error ("NotADirectoryError: out") := rfl

set_option maxHeartbeats 1000000 in
/-- C5 (amended): restricted to states in which every path on the
cleaners' fixed lists is absent or a directory — which is what every
real project tree satisfies — both cleaners raise no error,
return success, leave every listed output path absent, and a second
invocation returns the very same state (idempotence), again with
success and with the output paths absent. -/
theorem cleaner_idempotent_on_dir_states (fs : FS)
    (h : ∀ p ∈ Flag.directories_to_clean, lookupFS fs p ≠ some Entry.file) :
    (∃ fs2, Flag.clean_build fs = Except.ok (fs2, true)
      ∧ (∀ p ∈ Flag.directories_to_clean, lookupFS fs2 p = none)
      ∧ Flag.clean_build fs2 = Except.ok (fs2, true))
    ∧ (∃ fs2, Simple.clean_build fs = Except.ok (fs2, true)
      ∧ (∀ p ∈ Simple.dirs_to_clean, lookupFS fs2 p = none)
      ∧ Simple.clean_build fs2 = Except.ok (fs2, true)) := by
  constructor
  · obtain ⟨fs2, hf, hall, h2⟩ :=
      fold_clean_general Flag.clean_step flag_clean_step_cases flag_clean_step_none
        Flag.directories_to_clean fs h (by decide)
    refine ⟨fs2, ?_, hall, ?_⟩
    · unfold Flag.clean_build
      rw [hf]
    · unfold Flag.clean_build
      rw [h2]
  · have hs : ∀ p ∈ Simple.dirs_to_clean, lookupFS fs p ≠ some Entry.file := by
      intro p hp
      apply h
      simp only [Simple.dirs_to_clean, List.mem_cons, List.not_mem_nil, or_false] at hp
      rcases hp with rfl | rfl | rfl <;> simp [Flag.directories_to_clean]
    obtain ⟨fs2, hf, hall, h2⟩ :=
      fold_clean_general Simple.clean_step simple_clean_step_cases simple_clean_step_none
        Simple.dirs_to_clean fs hs (by decide)
    refine ⟨fs2, ?_, hall, ?_⟩
    · unfold Simple.clean_build
      rw [hf]
    · unfold Simple.clean_build
      rw [h2]

/-- C5 witness: the amended theorem applied to a normal pre-clean
state. -/
theorem cleaner_idempotent_on_dir_states_witness :
    (∃ fs2, Flag.clean_build fsNormal = Except.ok (fs2, true)
      ∧ (∀ p ∈ Flag.directories_to_clean, lookupFS fs2 p = none)
      ∧ Flag.clean_build fs2 = Except.ok (fs2, true))
    ∧ (∃ fs2, Simple.clean_build fsNormal = Except.ok (fs2, true)
      ∧ (∀ p ∈ Simple.dirs_to_clean, lookupFS fs2 p = none)
      ∧ Simple.clean_build fs2 = Except.ok (fs2, true)) :=
  cleaner_idempotent_on_dir_states fsNormal (by decide)

/-- C6: the flag-driven cleaner's glob branch is dead code.  The
state `fsGlobBug` contains `src/renderer/app.js`, which matches the
cleaner's glob pattern `src/renderer/*.js`, yet `clean_build`
returns the state unchanged (removing and logging nothing), because
the branch is guarded by `Path("src/renderer/*.js").exists()` on the
literal pattern path, which is false. -/
theorem glob_clean_dead_branch :
    globMatch ("src/renderer/*.js") ("src/renderer/app.js") = true
    ∧ Flag.clean_build fsGlobBug = Except.ok (fsGlobBug, true)
    ∧ lookupFS fsGlobBug ("src/renderer/app.js") = some Entry.file :=
  ⟨rfl, rfl, rfl⟩

/-- C7, counterexample: the flag-driven reporter lists
`out/FlowGenius.zipx` although its extension `.zipx` is not an entry
of the allow-list — the source tests `ext in f.suffix.lower()`,
i.e. substring containment, not equality. -/
theorem flag_reporter_lists_zipx :
    (Flag.show_build_artifacts fsZipx ("win32")).1 = ["out/FlowGenius.zipx"]
    ∧ Flag.allow_list.contains (strLower (pathSuffix ("out/FlowGenius.zipx"))) = false :=
  ⟨rfl, rfl⟩

/-- C8, counterexample: with the output directory absent, the
flag-driven reporter prints nothing at all — in particular no
"not found" message (only the interactive script prints one). -/
theorem flag_reporter_silent_when_absent :
    Flag.show_build_artifacts ([] : FS) ("win32") = ([], []) ∧ existsB ([] : FS) ("out") = false :=
  ⟨rfl, rfl⟩

/-- C7 (amended): a path is listed by the flag-driven reporter iff
the output directory exists, the path is a regular file below `out`,
and some allow-list entry is a substring of its lower-cased suffix
(substring containment, not equality — hence `.zipx` is listed); the
interactive reporter lists exactly the entries (files or directories,
it never checks `is_file`) below `out` whose name ends in `.exe`,
`.dmg` or `.AppImage`. -/
theorem reporter_listing_characterization :
    ∀ (fs : FS) (pl p : String),
    (p ∈ (Flag.show_build_artifacts fs pl).1 ↔
      (existsB fs ("out") = true ∧ (p, Entry.file) ∈ fs ∧ strStarts ("out/") p = true
        ∧ Flag.allow_list.any
            (fun ext => containsSub ext (strLower (pathSuffix p))) = true))
    ∧ (p ∈ (Simple.show_build_results fs).1 ↔
      (existsB fs ("out") = true ∧ ∃ k, (p, k) ∈ fs
        ∧ (Simple.rglobName (".exe") p || Simple.rglobName (".dmg") p
            || Simple.rglobName (".AppImage") p) = true)) := by
  intro fs pl p
  constructor
  · by_cases hout : existsB fs ("out") = true
    · have hfst : (Flag.show_build_artifacts fs pl).1
          = ((fs.filter (fun e => strStarts ("out/") e.1)).filter Flag.artifactPred).map
              Prod.fst := by
        simp [Flag.show_build_artifacts, hout]
      rw [hfst]
      constructor
      · intro hp
        rw [List.mem_map] at hp
        obtain ⟨e, he, rfl⟩ := hp
        rw [List.mem_filter] at he
        obtain ⟨he1, hpred⟩ := he
        rw [List.mem_filter] at he1
        obtain ⟨hmem, hunder⟩ := he1
        unfold Flag.artifactPred at hpred
        rw [Bool.and_eq_true] at hpred
        obtain ⟨a, b⟩ := e
        have hfile : b = Entry.file := of_decide_eq_true hpred.1
        subst hfile
        exact ⟨hout, hmem, hunder, hpred.2⟩
      · rintro ⟨-, hmem, hunder, hany⟩
        rw [List.mem_map]
        refine ⟨(p, Entry.file), ?_, rfl⟩
        rw [List.mem_filter]
        refine ⟨?_, ?_⟩
        · rw [List.mem_filter]
          exact ⟨hmem, hunder⟩
        · unfold Flag.artifactPred
          rw [Bool.and_eq_true]
          exact ⟨decide_eq_true rfl, hany⟩
    · have hz : Flag.show_build_artifacts fs pl = ([], []) := by
        simp [Flag.show_build_artifacts, hout]
      rw [hz]
      simp [hout]
  · by_cases hout : existsB fs ("out") = true
    · have hfst : (Simple.show_build_results fs).1
          = ((fs.filter (fun e => Simple.rglobName (".exe") e.1)).map Prod.fst)
            ++ ((fs.filter (fun e => Simple.rglobName (".dmg") e.1)).map Prod.fst)
            ++ ((fs.filter (fun e => Simple.rglobName (".AppImage") e.1)).map Prod.fst) := by
        simp [Simple.show_build_results, hout]
      rw [hfst]
      constructor
      · intro hp
        rw [List.mem_append, List.mem_append] at hp
        have key : ∀ ext : String, p ∈ (fs.filter (fun e => Simple.rglobName ext e.1)).map
            Prod.fst → ∃ k, (p, k) ∈ fs ∧ Simple.rglobName ext p = true := by
          intro ext hpe
          rw [List.mem_map] at hpe
          obtain ⟨e, he, rfl⟩ := hpe
          rw [List.mem_filter] at he
          obtain ⟨a, b⟩ := e
          exact ⟨b, he.1, he.2⟩
        rcases hp with (h1 | h2) | h3
        · obtain ⟨k, hk, hg⟩ := key _ h1
          exact ⟨hout, k, hk, by rw [hg]; rfl⟩
        · obtain ⟨k, hk, hg⟩ := key _ h2
          exact ⟨hout, k, hk, by rw [hg]; simp⟩
        · obtain ⟨k, hk, hg⟩ := key _ h3
          exact ⟨hout, k, hk, by rw [hg]; simp⟩
      · rintro ⟨-, k, hmem, hor⟩
        rw [List.mem_append, List.mem_append]
        rw [Bool.or_eq_true, Bool.or_eq_true] at hor
        rcases hor with (h1 | h2) | h3
        · refine Or.inl (Or.inl ?_)
          rw [List.mem_map]
          exact ⟨(p, k), List.mem_filter.mpr ⟨hmem, h1⟩, rfl⟩
        · refine Or.inl (Or.inr ?_)
          rw [List.mem_map]
          exact ⟨(p, k), List.mem_filter.mpr ⟨hmem, h2⟩, rfl⟩
        · refine Or.inr ?_
          rw [List.mem_map]
          exact ⟨(p, k), List.mem_filter.mpr ⟨hmem, h3⟩, rfl⟩
    · have hz : Simple.show_build_results fs
          = ([], ["No \x27out\x27 directory found. Build may have failed."]) := by
        simp [Simple.show_build_results, hout]
      rw [hz]
      simp [hout]

/-- C8 (amended): on a state whose output directory is absent, both
reporters return (they are total functions: no exception) with zero
listed artifacts; the interactive reporter prints its "not found"
message, while the flag-driven reporter prints nothing at all.  On a
state whose output directory exists but is empty, both list zero
artifacts; the interactive reporter prints its "no installer files"
message and the flag-driven reporter again prints nothing. -/
theorem reporter_empty_absent_behavior :
    ∀ (fs : FS) (pl : String),
    (existsB fs ("out") = false →
      Flag.show_build_artifacts fs pl = ([], [])
      ∧ Simple.show_build_results fs
          = ([], ["No \x27out\x27 directory found. Build may have failed."]))
    ∧ ((existsB fs ("out") = true ∧ ∀ e ∈ fs, strStarts ("out/") e.1 = false) →
      Flag.show_build_artifacts fs pl = ([], [])
      ∧ Simple.show_build_results fs
          = ([], ["Build completed! Generated files:",
                  "No installer files found in out/ directory",
                  "All files are in the \x27out\x27 directory: out"])) := by
  intro fs pl
  constructor
  · intro hout
    constructor
    · simp [Flag.show_build_artifacts, hout]
    · simp [Simple.show_build_results, hout]
  · rintro ⟨hout, hempty⟩
    have hf1 : fs.filter (fun e => strStarts ("out/") e.1) = [] := by
      rw [List.filter_eq_nil_iff]
      intro e he
      simp [hempty e he]
    have hf2 : ∀ ext : String, fs.filter (fun e => Simple.rglobName ext e.1) = [] := by
      intro ext
      rw [List.filter_eq_nil_iff]
      intro e he
      simp [Simple.rglobName, hempty e he]
    constructor
    · simp [Flag.show_build_artifacts, hout, hf1]
    · simp [Simple.show_build_results, hout, hf2]

/-- C8 witness: the amended theorem applied to a state without `out`
(first conjunct) and to a state whose `out` directory is empty
(second conjunct). -/
theorem reporter_empty_absent_behavior_witness :
    (Flag.show_build_artifacts [("dist", Entry.dir)] ("win32") = ([], [])
      ∧ Simple.show_build_results [("dist", Entry.dir)]
          = ([], ["No \x27out\x27 directory found. Build may have failed."]))
    ∧ (Flag.show_build_artifacts [("out", Entry.dir)] ("win32") = ([], [])
      ∧ Simple.show_build_results [("out", Entry.dir)]
          = ([], ["Build completed! Generated files:",
                  "No installer files found in out/ directory",
                  "All files are in the \x27out\x27 directory: out"])) :=
  ⟨(reporter_empty_absent_behavior [("dist", Entry.dir)] ("win32")).1 rfl,
   (reporter_empty_absent_behavior [("out", Entry.dir)] ("win32")).2 ⟨rfl, by decide⟩⟩

/-- C4: with no platform flag given, the resolved target set is
exactly the single platform matching the host OS for each of the
three recognised hosts (`platform.system()` values `Windows`,
`Darwin`, `Linux`, compared lower-cased; an unrecognised host falls
back to Windows, outside the claim's enumeration). -/
theorem default_platform_resolution :
    ∀ (a : Flag.Args) (system : String),
    (a.windows || a.macos || a.linux || a.all) = false →
    ((strLower system = "windows" →
        Flag.targets (Flag.resolveTargets a system) = [Flag.Platform.windows])
      ∧ (strLower system = "darwin" →
        Flag.targets (Flag.resolveTargets a system) = [Flag.Platform.macos])
      ∧ (strLower system = "linux" →
        Flag.targets (Flag.resolveTargets a system) = [Flag.Platform.linux])) := by
  intro a system h
  obtain ⟨w, m, l, al, cl, idf, v⟩ := a
  simp only [Bool.or_eq_false_iff] at h
  obtain ⟨⟨⟨hw, hm⟩, hl⟩, ha⟩ := h
  subst hw
  subst hm
  subst hl
  subst ha
  have e1 : (("windows" : String) == "windows") = true := by decide
  have e2 : (("darwin" : String) == "windows") = false := by decide
  have e3 : (("darwin" : String) == "darwin") = true := by decide
  have e4 : (("linux" : String) == "windows") = false := by decide
  have e5 : (("linux" : String) == "darwin") = false := by decide
  have e6 : (("linux" : String) == "linux") = true := by decide
  refine ⟨?_, ?_, ?_⟩ <;> intro hs <;>
    simp [Flag.resolveTargets, Flag.targets, hs, e1, e2, e3, e4, e5, e6]

/-- C4 witness: a flagless invocation on each of the three hosts. -/
theorem default_platform_resolution_witness :
    (Flag.targets (Flag.resolveTargets ⟨false, false, false, false, false, false, false⟩
        ("Windows")) = [Flag.Platform.windows])
    ∧ (Flag.targets (Flag.resolveTargets ⟨false, false, false, false, false, false, false⟩
        ("Darwin")) = [Flag.Platform.macos])
    ∧ (Flag.targets (Flag.resolveTargets ⟨false, false, false, false, false, false, false⟩
        ("Linux")) = [Flag.Platform.linux]) :=
  ⟨(default_platform_resolution ⟨false, false, false, false, false, false, false⟩
      ("Windows") rfl).1 rfl,
   (default_platform_resolution ⟨false, false, false, false, false, false, false⟩
      ("Darwin") rfl).2.1 rfl,
   (default_platform_resolution ⟨false, false, false, false, false, false, false⟩
      ("Linux") rfl).2.2 rfl⟩

/-- Concrete inputs for the C1 witness: a windows-only run whose
build command fails, in an environment where the prerequisites all
hold. -/
def argsW : Flag.Args := ⟨true, false, false, false, false, false, false⟩

/-- Environment with npm, package.json and node_modules all present. -/
def envOK : Flag.Env := ⟨true, true, true⟩

/-- Command outcomes with a failing build step. -/
def ocBF : Flag.CmdOutcomes := ⟨true, true, false, true, true, true⟩

/-- Iteration outcomes with a failing build step. -/
def ioBF : Simple.IterOutcomes := ⟨false, true, true, true⟩

/-- C1: in either script, when `npm run build` runs and fails, no
installer-generation command (`make:win`, `make:mac`, `make:linux`)
is ever invoked in that run, and the run is reported as a failure:
the flag-driven script exits 1, and the interactive script's menu
iteration reports `success = False` (the failure message path). -/
theorem build_failure_short_circuits :
    (∀ (rawArgs : Flag.Args) (system : String) (env : Flag.Env) (oc : Flag.CmdOutcomes),
      CmdName.npmBuild ∈ (Flag.main rawArgs system env oc).trace →
      oc.build = false →
      (CmdName.makeWin ∉ (Flag.main rawArgs system env oc).trace
        ∧ CmdName.makeMac ∉ (Flag.main rawArgs system env oc).trace
        ∧ CmdName.makeLinux ∉ (Flag.main rawArgs system env oc).trace)
      ∧ (Flag.main rawArgs system env oc).exitCode = 1)
    ∧ (∀ (io : Simple.IterOutcomes) (choice : String) (tr : List CmdName) (s : Bool),
      io.build = false →
      Simple.stepOf io choice = Simple.IterStep.built tr s →
      (CmdName.makeWin ∉ tr ∧ CmdName.makeMac ∉ tr ∧ CmdName.makeLinux ∉ tr)
      ∧ s = false) := by
  constructor
  · intro rawArgs system env oc
    unfold Flag.main Flag.flagRun
    exact Flag.flagCore_build_gate _ _ _ _ env oc
  · intro io choice tr s hb hstep
    revert hstep
    unfold Simple.stepOf
    simp only [hb, if_false, Bool.false_eq_true]
    split_ifs <;> intro hstep <;>
      first
        | (cases hstep; exact ⟨by decide, rfl⟩)
        | exact hstep.elim

/-- C1 witness: both parts applied at concrete failing-build inputs. -/
theorem build_failure_short_circuits_witness :
    ((CmdName.makeWin ∉ (Flag.main argsW ("Linux") envOK ocBF).trace
        ∧ CmdName.makeMac ∉ (Flag.main argsW ("Linux") envOK ocBF).trace
        ∧ CmdName.makeLinux ∉ (Flag.main argsW ("Linux") envOK ocBF).trace)
      ∧ (Flag.main argsW ("Linux") envOK ocBF).exitCode = 1)
    ∧ ((CmdName.makeWin ∉ [CmdName.npmBuild] ∧ CmdName.makeMac ∉ [CmdName.npmBuild]
        ∧ CmdName.makeLinux ∉ [CmdName.npmBuild]) ∧ false = false) :=
  ⟨build_failure_short_circuits.1 argsW ("Linux") envOK ocBF (by decide) rfl,
   build_failure_short_circuits.2 ioBF ("1") [CmdName.npmBuild] false rfl rfl⟩

/-- C2: once the flag-driven script reaches the installer phase
(prerequisites held and the build succeeded), each requested
platform's installer command is attempted exactly once — and an
unrequested platform's never — regardless of the outcomes of the
other platforms' commands, and the run succeeds (exit 0, i.e. the
overall flag, the logical AND across platforms) exactly when every
requested platform's command succeeded. -/
theorem installer_attempts_and_overall_and :
    ∀ (args : Flag.Args) (env : Flag.Env) (oc : Flag.CmdOutcomes),
    env.npmOk = true → env.packageJson = true →
    (env.nodeModules = false → oc.installAtPrereq = true) →
    (args.installDeps = true → oc.installAtFlag = true) →
    oc.build = true →
    ((Flag.flagRun args env oc).trace.count CmdName.makeWin
        = (if args.all || args.windows then 1 else 0)
      ∧ (Flag.flagRun args env oc).trace.count CmdName.makeMac
        = (if args.all || args.macos then 1 else 0)
      ∧ (Flag.flagRun args env oc).trace.count CmdName.makeLinux
        = (if args.all || args.linux then 1 else 0))
    ∧ ((Flag.flagRun args env oc).exitCode = 0 ↔
        (((args.all || args.windows) = true → oc.makeWin = true)
          ∧ ((args.all || args.macos) = true → oc.makeMac = true)
          ∧ ((args.all || args.linux) = true → oc.makeLinux = true))) := by
  intro args env oc
  unfold Flag.flagRun
  exact Flag.flagCore_installers args.installDeps _ _ _ env oc

/-- Outcomes for the C2 witness: all platforms requested, macOS
failing, the others succeeding. -/
def argsAll : Flag.Args := ⟨false, false, false, true, false, false, false⟩

/-- Command outcomes with only `make:mac` failing. -/
def ocMacFail : Flag.CmdOutcomes := ⟨true, true, true, true, false, true⟩

/-- C2 witness: an `--all` run with a failing macOS installer still
attempts each platform exactly once and exits 1. -/
theorem installer_attempts_and_overall_and_witness :
    (((Flag.flagRun argsAll envOK ocMacFail).trace.count CmdName.makeWin
        = (if argsAll.all || argsAll.windows then 1 else 0)
      ∧ (Flag.flagRun argsAll envOK ocMacFail).trace.count CmdName.makeMac
        = (if argsAll.all || argsAll.macos then 1 else 0)
      ∧ (Flag.flagRun argsAll envOK ocMacFail).trace.count CmdName.makeLinux
        = (if argsAll.all || argsAll.linux then 1 else 0))
    ∧ ((Flag.flagRun argsAll envOK ocMacFail).exitCode = 0 ↔
        (((argsAll.all || argsAll.windows) = true → ocMacFail.makeWin = true)
          ∧ ((argsAll.all || argsAll.macos) = true → ocMacFail.makeMac = true)
          ∧ ((argsAll.all || argsAll.linux) = true → ocMacFail.makeLinux = true)))) :=
  installer_attempts_and_overall_and argsAll envOK ocMacFail rfl rfl
    (by decide) (by decide) rfl

/-- C3: the flag-driven script exits 0 exactly when npm was found,
`package.json` exists, the prerequisite `npm install` (run when
`node_modules` is missing) succeeded, the `--install-deps` install
succeeded when requested, the build succeeded, and every requested
platform's installer command succeeded; it exits 1 in every other
case. -/
theorem flag_exit_code_iff :
    ∀ (rawArgs : Flag.Args) (system : String) (env : Flag.Env) (oc : Flag.CmdOutcomes),
    (Flag.main rawArgs system env oc).exitCode = 0 ↔
      (env.npmOk = true ∧ env.packageJson = true
        ∧ (env.nodeModules = false → oc.installAtPrereq = true)
        ∧ ((Flag.resolveTargets rawArgs system).installDeps = true →
            oc.installAtFlag = true)
        ∧ oc.build = true
        ∧ (((Flag.resolveTargets rawArgs system).all
            || (Flag.resolveTargets rawArgs system).windows) = true → oc.makeWin = true)
        ∧ (((Flag.resolveTargets rawArgs system).all
            || (Flag.resolveTargets rawArgs system).macos) = true → oc.makeMac = true)
        ∧ (((Flag.resolveTargets rawArgs system).all
            || (Flag.resolveTargets rawArgs system).linux) = true → oc.makeLinux = true)) := by
  intro rawArgs system env oc
  unfold Flag.main Flag.flagRun
  exact Flag.flagCore_exit_iff _ _ _ _ env oc

set_option synthInstance.maxHeartbeats 1000000 in
/-- C9: in the interactive script's all-platforms path a failing
`make:mac` is non-fatal: the returned overall success equals
`make:win AND make:linux` (the macOS outcome never touches it — the
source catches the `CalledProcessError` and only prints a note), and
the Windows and Linux commands are both attempted.  The source never
consults the host OS here, so this holds on every host, in
particular on a non-macOS one. -/
theorem mac_failure_nonfatal :
    ∀ (io : Simple.IterOutcomes), io.makeMac = false →
    (Simple.create_all_installers io).2 = (io.makeWin && io.makeLinux)
    ∧ CmdName.makeWin ∈ (Simple.create_all_installers io).1
    ∧ CmdName.makeLinux ∈ (Simple.create_all_installers io).1 := by decide

/-- Iteration outcomes with only `make:mac` failing. -/
def ioMacFail : Simple.IterOutcomes := ⟨true, true, false, true⟩

/-- C9 witness: the theorem applied with every other command
succeeding and `make:mac` failing. -/
theorem mac_failure_nonfatal_witness :
    (Simple.create_all_installers ioMacFail).2 = (ioMacFail.makeWin && ioMacFail.makeLinux)
    ∧ CmdName.makeWin ∈ (Simple.create_all_installers ioMacFail).1
    ∧ CmdName.makeLinux ∈ (Simple.create_all_installers ioMacFail).1 :=
  mac_failure_nonfatal ioMacFail rfl

/-- C10: after the prerequisite check has succeeded, whenever the
interactive script's menu loop terminates through one of its exit
paths — menu choice 6, or an answer other than `y`/`yes` at the
continue prompt — the exit status is 0, for every input sequence and
every pattern of build/installer command failures (a failed build
only makes the iteration report failure; the loop continues). -/
theorem interactive_exit_code_zero :
    ∀ (os : Nat → Simple.IterOutcomes) (inputs : List String) (n r : Nat),
    Simple.runLoop os n inputs = some r → r = 0 := by
  intro os
  have key : ∀ (len : Nat) (inputs : List String), inputs.length ≤ len →
      ∀ (n r : Nat), Simple.runLoop os n inputs = some r → r = 0 := by
    intro len
    induction len with
    | zero =>
      intro inputs hle n r h
      have hnil : inputs = [] := List.eq_nil_of_length_eq_zero (Nat.le_zero.mp hle)
      subst hnil
      rw [Simple.runLoop_nil] at h
      cases h
    | succ k ih =>
      intro inputs hle n r h
      rcases inputs with _ | ⟨choice, rest⟩
      · rw [Simple.runLoop_nil] at h
        cases h
      · rcases rest with _ | ⟨ans, rest2⟩
        · rw [Simple.runLoop.eq_2] at h
          split at h
          · exact (Option.some.inj h).symm
          · rw [Simple.runLoop_nil] at h
            cases h
          · cases h
        · rw [Simple.runLoop.eq_3] at h
          split at h
          · exact (Option.some.inj h).symm
          · refine ih (ans :: rest2) ?_ (n + 1) r h
            simp only [List.length_cons] at hle ⊢
            omega
          · have h2 : (if (strLower (strTrim ans) == "y"
                || strLower (strTrim ans) == "yes") = true then
                  Simple.runLoop os (n + 1) rest2 else some 0) = some r := h
            split at h2
            · refine ih rest2 ?_ (n + 1) r h2
              simp only [List.length_cons] at hle
              omega
            · exact (Option.some.inj h2).symm
  intro inputs n r h
  exact key inputs.length inputs (Nat.le_refl _) n r h

/-- C10 witness: choosing menu item 6 exits with status 0. -/
theorem interactive_exit_code_zero_witness :
    Simple.runLoop (fun _ => ⟨true, true, true, true⟩) 0 ["6"] = some 0
    ∧ (0 : Nat) = 0 :=
  ⟨rfl, interactive_exit_code_zero (fun _ => ⟨true, true, true, true⟩) ["6"] 0 0 rfl⟩
